import Mathlib

/-! Shallow embedding of the icetea-web3 client (`src/index.js`): the query
builders of `getPastEvents` and `subscribe`, the per-instance subscription
registry, the `subscribe` / `unsubscribe` state transitions, and the
`onMessage` routing handler that `subscribe` installs on the transport.
External collaborators (the JS runtime JSON parser, the transport server,
and the event decoder `decodeEventData` from `./utils`, whose source is not
part of the repository snapshot) enter the definitions as explicit
parameters; the application `Event` shape and the transport listener
semantics are modelled from the spec. -/

set_option maxHeartbeats 1000000

namespace IceteaWeb3

/-- A scalar condition value: a JS number (restricted to the integral values
the client actually indexes by) or a JS string. -/
inductive Scalar where
  | num (n : Int)
  | str (s : String)
deriving DecidableEq, Repr

/-- Rendering of a scalar inside a template literal, as in `${value}`. -/
def Scalar.render : Scalar → String
  | .num n => toString n
  | .str s => s

/-- Whitespace for the purposes of JS string-to-number coercion. -/
def jsIsSpace (c : Char) : Bool :=
  c == ' ' || c == '\t' || c == '\n' || c == '\r'

/-- Model of JS string trimming used by numeric coercion. -/
def jsTrim (s : String) : String :=
  ⟨((s.data.dropWhile jsIsSpace).reverse.dropWhile jsIsSpace).reverse⟩

/-- Parse a nonempty run of decimal digits, `none` on any non-digit. -/
def decDigits (cs : List Char) : Option Nat :=
  cs.foldl
    (fun acc c =>
      match acc with
      | none => none
      | some n => if c.isDigit then some (n * 10 + (c.toNat - 48)) else none)
    (some 0)

/-- Model of JS `ToNumber` on strings, restricted to integral decimal
literals: the empty (or all-whitespace) string is 0, an optionally signed
digit run is its value, anything else is NaN (`none`). -/
def jsStrToInt (s : String) : Option Int :=
  match (jsTrim s).data with
  | [] => some 0
  | '-' :: rest => if rest.isEmpty then none else (decDigits rest).map (fun n => -(n : Int))
  | '+' :: rest => if rest.isEmpty then none else (decDigits rest).map (fun n => (n : Int))
  | cs => (decDigits cs).map (fun n => (n : Int))

/-- Numeric coercion of a scalar, `none` meaning NaN. -/
def jsToNumber : Scalar → Option Int
  | .num n => some n
  | .str s => jsStrToInt s

/-- Rendering of `${value - 1}`: JS `-` coerces both operands to numbers. -/
def renderSub1 (v : Scalar) : String :=
  match jsToNumber v with
  | some n => toString (n - 1)
  | none => "NaN"

/-- Rendering of `${value + 1}`: JS `+` concatenates when one operand is a
string, and adds when both are numbers. -/
def renderAdd1 (v : Scalar) : String :=
  match v with
  | .num n => toString (n + 1)
  | .str s => s ++ "1"

/-- One clause of the conjunctive query, from the shared `reduce` body of
`getPastEvents` and `subscribe`: `fromBlock` becomes an exclusive lower
height bound, `toBlock` an exclusive upper height bound, and any other key
an exact match. -/
def condClause (key : String) (v : Scalar) : String :=
  if key = "fromBlock" then "tx.height>" ++ renderSub1 v
  else if key = "toBlock" then "tx.height<" ++ renderAdd1 v
  else key ++ "=" ++ v.render

/-- Model of JS `Array.prototype.join(' AND ')`. -/
def joinAnd : List String → String
  | [] => ""
  | [x] => x
  | x :: y :: xs => x ++ " AND " ++ joinAnd (y :: xs)

/-- The `reduce`-then-`join` of both query builders: the accumulator starts
at the singleton seed clause, each condition entry pushes one clause, and
the array is joined with the literal separator. -/
def buildCondQuery (seed : String) (kvs : List (String × Scalar)) : String :=
  joinAnd (kvs.foldl (fun arr kv => arr ++ [condClause kv.1 kv.2]) [seed])

/-- The `conditions` argument of `getPastEvents` and `subscribe`: a raw
query string, an object literal (modelled as its `Object.keys` enumeration
with the associated values), or a function (whose own enumerable keys are
none).  A function value carries an opaque tag identifying the callback. -/
inductive Conditions where
  | str (s : String)
  | obj (kvs : List (String × Scalar))
  | fn (cb : Nat)
deriving DecidableEq, Repr

/-- The emitter rewriting at the top of the structured branch of
`getPastEvents`: a falsy emitter (absent or empty) becomes `"."`, any other
emitter is wrapped as `"|" ++ emitter ++ "."`. -/
def emitterScope (emitter : Option String) : String :=
  match emitter with
  | none => "."
  | some s => if s = "" then "." else "|" ++ s ++ "."

/-- The query built by `getPastEvents`: a string condition is used as the
query unchanged; otherwise the seed clause is the `EventNames` containment
test and the condition entries are folded in. -/
def getPastEventsQuery (eventName : String) (emitter : Option String)
    (conds : Conditions) : String :=
  match conds with
  | .str q => q
  | .obj kvs =>
      buildCondQuery
        ("EventNames CONTAINS \x27" ++ emitterScope emitter ++ eventName ++ "|\x27") kvs
  | .fn _ =>
      buildCondQuery
        ("EventNames CONTAINS \x27" ++ emitterScope emitter ++ eventName ++ "|\x27") []

/-- A registered subscription, exactly the object stored in
`this.subscriptions[result.id]`. -/
structure Subscription where
  id : String
  subscribeMethod : String
  query : String
deriving DecidableEq, Repr

/-- The data captured by the `onMessage` closure that `subscribe` registers
on the transport: the server-returned id, the system-event flag, the
non-system event name (undefined for system events), and the callback (an
opaque tag, `none` when the caller passed no function). -/
structure MsgHandler where
  resultId : String
  isSystemEvent : Bool
  nonSystemEventName : Option String
  callback : Option Nat
deriving DecidableEq, Repr

/-- The mutable state of one `IceTeaWeb3` instance: the transport kind
decided in the constructor, the subscription registry, the subscribe
counter, and the `onMessage` listeners accumulated on the transport.
The listener list is modelled from the spec: the Transport collaborator
exposes `registerListener(kind, handler)` and each registration adds the
handler to the listeners receiving inbound push messages. -/
structure ClientState where
  isWebSocket : Bool
  subscriptions : List (String × Subscription)
  countSubscribeEvent : Nat
  listeners : List MsgHandler
deriving DecidableEq, Repr

/-- Endpoint test from the constructor:
`endpoint.startsWith('ws://') || endpoint.startsWith('wss://')`. -/
def isWsEndpoint (endpoint : String) : Bool :=
  "ws://".data.isPrefixOf endpoint.data || "wss://".data.isPrefixOf endpoint.data

/-- The constructor: picks the transport from the endpoint scheme and
starts with an empty registry, a zero subscribe counter, and no
listeners. -/
def mkClient (endpoint : String) : ClientState :=
  { isWebSocket := isWsEndpoint endpoint
    subscriptions := []
    countSubscribeEvent := 0
    listeners := [] }

/-- JS property assignment `m[k] = v` on the registry object: replaces the
entry in place when the key exists, otherwise appends it. -/
def setAssoc (m : List (String × Subscription)) (k : String) (v : Subscription) :
    List (String × Subscription) :=
  match m with
  | [] => [(k, v)]
  | (k2, v2) :: rest => if k2 = k then (k, v) :: rest else (k2, v2) :: setAssoc rest k v

/-- JS `delete m[k]` on the registry object. -/
def eraseAssoc (m : List (String × Subscription)) (k : String) :
    List (String × Subscription) :=
  m.filter (fun kv => kv.1 != k)

/-- The fixed enumeration of tendermint system events tested by
`subscribe`. -/
def systemEvent : List String :=
  ["NewBlock", "NewBlockHeader", "Tx", "RoundState", "NewRound",
   "CompleteProposal", "Vote", "ValidatorSetUpdates", "ProposalString"]

/-- `systemEvent.indexOf(eventName) < 0` negated: whether the requested
event name is a system event. -/
def subIsSystem (n : String) : Bool :=
  systemEvent.contains n

/-- The (possibly reassigned) `eventName` variable after the system-event
check: a non-system name is replaced by the underlying tag `"Tx"`. -/
def subEvName (n : String) : String :=
  if subIsSystem n then n else "Tx"

/-- The value of `this.countSubscribeEvent` after the system-event check
inside one `subscribe` call (it is incremented exactly for non-system
names, before the whitespace loop runs). -/
def subCount (st : ClientState) (n : String) : Nat :=
  if subIsSystem n then st.countSubscribeEvent else st.countSubscribeEvent + 1

/-- The whitespace accumulated by the `for` loop:
`for (i = 0; i < countSubscribeEvent; i++) space = space + ' '`. -/
def spaces : Nat → String
  | 0 => ""
  | n + 1 => spaces n ++ " "

/-- The seed clause of a live-subscription query, from the template
literal `tm.event = SPACE(tag)`: the literal head, the counter-many
inserted spaces, and the quoted (possibly rewritten) event tag. -/
def subSeed (count : Nat) (n : String) : String :=
  "tm.event = " ++ spaces count ++ "\x27" ++ subEvName n ++ "\x27"

/-- The `subscribeMethod` stored in the registry:
`nonSystemEventName || eventName` after the reassignments, so a system name
stays itself, a nonempty non-system name stays itself, and the (falsy)
empty name falls through to the reassigned `"Tx"`. -/
def subscribeMethodOf (n : String) : String :=
  if subIsSystem n then n else if n = "" then "Tx" else n

/-- A promise outcome as observed by the client: resolved with a value,
rejected with an error, or never settled. -/
inductive Outcome (α : Type) where
  | resolved (value : α)
  | rejected (err : String)
  | pending
deriving DecidableEq, Repr

/-- The part of the server response to a subscribe request the client
reads: its `id` field. -/
structure SubResp where
  id : String
deriving DecidableEq, Repr

/-- The effective callback after the argument juggling inside `subscribe`:
a function passed as `conditions` with no `callback` argument becomes the
callback; in every other case the `callback` argument stands. -/
def subCallback (conds : Conditions) (callback : Option Nat) : Option Nat :=
  match conds, callback with
  | Conditions.fn f, none => some f
  | _, c => c

/-- The query built by one `subscribe` call: a string condition is the
query verbatim; an object folds its keys over the seed tag clause; a
function (after the possible reassignment of `conditions` to the empty
object, or directly, since a function has no enumerable keys) contributes
no clause beyond the seed. -/
def subQuery (st : ClientState) (n : String) (conds : Conditions) : String :=
  match conds with
  | Conditions.str q => q
  | Conditions.obj kvs => buildCondQuery (subSeed (subCount st n) n) kvs
  | Conditions.fn _ => buildCondQuery (subSeed (subCount st n) n) []

/-- The `onMessage` closure data captured by one `subscribe` call. -/
def subHandler (n : String) (resultId : String) (conds : Conditions)
    (callback : Option Nat) : MsgHandler :=
  { resultId := resultId
    isSystemEvent := subIsSystem n
    nonSystemEventName := if subIsSystem n then none else some n
    callback := subCallback conds callback }

/-- The `subscribe` method.  Its synchronous part throws for a non-socket
transport, classifies the event name, bumps the counter, resolves the
callback/conditions juggling, and builds the query; the asynchronous
continuation of `rpc.call('subscribe', {query})` registers the subscription
under the server-returned id and adds the `onMessage` closure to the
transport listeners.  The return value carries the state after the call,
the outcome handed to the caller, and the query that was sent. -/
def subscribe (st : ClientState) (eventName : String) (conds : Conditions)
    (callback : Option Nat) (server : String → Outcome SubResp) :
    Except String (ClientState × Outcome SubResp × String) :=
  if st.isWebSocket = false then
    Except.error "subscribe for WebSocket only"
  else
    let count := subCount st eventName
    let query := subQuery st eventName conds
    match server query with
    | Outcome.resolved result =>
        let sub : Subscription :=
          { id := result.id
            subscribeMethod := subscribeMethodOf eventName
            query := query }
        Except.ok
          ({ st with
              countSubscribeEvent := count
              subscriptions := setAssoc st.subscriptions result.id sub
              listeners := st.listeners ++ [subHandler eventName result.id conds callback] },
            Outcome.resolved result, query)
    | o => Except.ok ({ st with countSubscribeEvent := count }, o, query)

/-- The `unsubscribe` method: throws for a non-socket transport, rejects
when the id is not registered (without contacting the transport), and
otherwise sends the stored query and deletes the registry entry in the
fulfillment continuation only.  The third component records the queries
sent to the transport by this call. -/
def unsubscribe (st : ClientState) (subscriptionId : String)
    (server : String → Outcome String) :
    Except String (ClientState × Outcome String × List String) :=
  if st.isWebSocket = false then
    Except.error "unsubscribe for WebSocket only"
  else
    match st.subscriptions.lookup subscriptionId with
    | some sub =>
        match server sub.query with
        | Outcome.resolved res =>
            Except.ok
              ({ st with subscriptions := eraseAssoc st.subscriptions subscriptionId },
                Outcome.resolved res, [sub.query])
        | o => Except.ok (st, o, [sub.query])
    | none =>
        Except.ok
          (st,
            Outcome.rejected
              ("Error: Subscription with ID " ++ subscriptionId ++ " does not exist."),
            [])

/-- A JSON value, the possible results of the runtime JSON parser. -/
inductive Json where
  | null
  | bool (b : Bool)
  | num (n : Int)
  | str (s : String)
  | arr (xs : List Json)
  | obj (kvs : List (String × Json))

/-- A JS runtime exception escaping the message handler. -/
inductive JsError where
  | parseFail (msg : String)
  | typeErr (msg : String)
deriving DecidableEq, Repr

/-- JS property read `v.k` on a parsed JSON value: throws on `null`, yields
the property on an object, and `undefined` (`none`) on every other value. -/
def Json.field (v : Json) (k : String) : Except JsError (Option Json) :=
  match v with
  | .null => Except.error (JsError.typeErr ("Cannot read property " ++ k ++ " of null"))
  | .obj kvs => Except.ok (kvs.lookup k)
  | _ => Except.ok none

/-- Whether `needle` occurs as a substring of `hay`, the meaning of
`hay.indexOf(needle) >= 0` on strings. -/
def strContainsSub (hay needle : String) : Bool :=
  (List.range (hay.data.length + 1)).any
    (fun i => needle.data.isPrefixOf (hay.data.drop i))

/-- The test `jsonMsg.id.indexOf(result.id) >= 0`: throws when the field is
`undefined`, `null` or has no `indexOf` method; is a substring test on a
string; and on an array is an element test under strict equality (only a
string element can strictly equal the string `result.id`). -/
def jsIndexOf (v : Option Json) (needle : String) : Except JsError Bool :=
  match v with
  | none => Except.error (JsError.typeErr "Cannot read property indexOf of undefined")
  | some (.str s) => Except.ok (strContainsSub s needle)
  | some (.arr xs) =>
      Except.ok (xs.any (fun x => match x with | .str s => s = needle | _ => false))
  | some _ => Except.error (JsError.typeErr "indexOf is not a function")

/-- Modelled from the spec: an application-level Event decoded from a
transaction event log by the external `decodeEventData` helper
(`./utils`, not in the repository snapshot) —
`{ eventName: string, emitter: address, fields: mapping }`. -/
structure Event where
  eventName : String
  emitter : String
  fields : List (String × Json)

/-- The reshaped envelope built for one matching application event: the
original protocol-version and correlation fields of the inbound message,
the matching event as `result`, and the subscription query attached to it
as `result.query`. -/
structure Reshaped where
  jsonrpc : Option Json
  id : Option Json
  result : Event
  resultQuery : String

/-- One observable callback invocation of the routing handler: the raw
inbound string (system subscriptions) or a reshaped envelope (application
subscriptions). -/
inductive CallbackCall where
  | raw (cb : Nat) (message : String)
  | reshaped (cb : Nat) (envelope : Reshaped)

/-- The `forEach` body of the non-system branch of the handler: a matching
event (truthy `eventName` strictly equal to the captured non-system name)
reads the envelope fields, reads the stored query through the live
registry (throwing when the id is no longer registered), and invokes the
callback with the reshaped envelope. -/
def routeEvent (h : MsgHandler) (subs : List (String × Subscription)) (jm : Json)
    (acc : List CallbackCall) (ev : Event) : Except JsError (List CallbackCall) :=
  if ev.eventName ≠ "" ∧ h.nonSystemEventName = some ev.eventName then
    match jm.field "jsonrpc" with
    | Except.error e => Except.error e
    | Except.ok rpc =>
        match jm.field "id" with
        | Except.error e => Except.error e
        | Except.ok idF =>
            match subs.lookup h.resultId with
            | none => Except.error (JsError.typeErr "Cannot read property query of undefined")
            | some sub =>
                match h.callback with
                | none => Except.error (JsError.typeErr "callback is not a function")
                | some cb =>
                    Except.ok (acc ++ [CallbackCall.reshaped cb ⟨rpc, idF, ev, sub.query⟩])
  else Except.ok acc

/-- The `forEach` traversal over the decoded events: left to right, one
`routeEvent` step per event, aborting on the first thrown exception. -/
def routeEvents (h : MsgHandler) (subs : List (String × Subscription)) (jm : Json)
    (acc : List CallbackCall) : List Event → Except JsError (List CallbackCall)
  | [] => Except.ok acc
  | ev :: rest =>
      match routeEvent h subs jm acc ev with
      | Except.error e => Except.error e
      | Except.ok acc2 => routeEvents h subs jm acc2 rest

/-- The `onMessage` closure registered by `subscribe`, lines 332-351 of the
source: parse the raw message (propagating the parse exception), gate on a
truthy captured id occurring inside the envelope id, then either hand the
raw message to the callback (system subscriptions) or decode the payload
with the external decoder and fan out over the matching events.  `parse`
stands for the runtime `JSON.parse` and `dec` for the external
`decodeEventData`. -/
def runOnMessage (h : MsgHandler) (subs : List (String × Subscription))
    (parse : String → Except String Json) (dec : Option Json → List Event)
    (message : String) : Except JsError (List CallbackCall) :=
  match parse message with
  | Except.error e => Except.error (JsError.parseFail e)
  | Except.ok jm =>
      if h.resultId ≠ "" then
        match jm.field "id" with
        | Except.error e => Except.error e
        | Except.ok idField =>
            match jsIndexOf idField h.resultId with
            | Except.error e => Except.error e
            | Except.ok hit =>
                if hit then
                  if h.isSystemEvent then
                    match h.callback with
                    | none => Except.error (JsError.typeErr "callback is not a function")
                    | some cb => Except.ok [CallbackCall.raw cb message]
                  else
                    match jm.field "result" with
                    | Except.error e => Except.error e
                    | Except.ok resF => routeEvents h subs jm [] (dec resF)
                else Except.ok []
      else Except.ok []

/-- Fixture: the raw inbound message of the C1 witness (its braces written
as hex escapes). -/
def c1wMsg : String :=
  "\x7b\"jsonrpc\":\"2.0\",\"id\":\"abc#event\",\"result\":\x7b\x7d\x7d"

/-- Fixture: the JSON value the runtime parser yields on `c1wMsg`. -/
def c1wJson : Json :=
  Json.obj [("jsonrpc", Json.str "2.0"), ("id", Json.str "abc#event"),
    ("result", Json.obj [])]

/-- Fixture: an instantiation of the runtime parser agreeing with
`JSON.parse` on the fixture message. -/
def c1wParse : String → Except String Json :=
  fun s => if s = c1wMsg then Except.ok c1wJson else Except.error "Unexpected token"

/-- Fixture: an instantiation of the external event decoder returning one
`Transferred` and one `Other` event, as in the spec's worked example. -/
def c1wDec : Option Json → List Event :=
  fun _ => [⟨"Transferred", "teat1emitter", []⟩, ⟨"Other", "teat1emitter", []⟩]

/-- Fixture: the raw inbound message of the C1 counterexample. -/
def c1xMsg : String :=
  "\x7b\"jsonrpc\":\"2.0\",\"id\":\"abc\",\"result\":\x7b\x7d\x7d"

/-- Fixture: the JSON value the runtime parser yields on `c1xMsg`. -/
def c1xJson : Json :=
  Json.obj [("jsonrpc", Json.str "2.0"), ("id", Json.str "abc"),
    ("result", Json.obj [])]

/-- Fixture: an instantiation of the runtime parser agreeing with
`JSON.parse` on the counterexample message. -/
def c1xParse : String → Except String Json :=
  fun s => if s = c1xMsg then Except.ok c1xJson else Except.error "Unexpected token"

/-- Fixture: an instantiation of the external event decoder returning a
single `MyEvent` event. -/
def c1xDec : Option Json → List Event :=
  fun _ => [⟨"MyEvent", "teat1emitter", []⟩]

/-- Fixture: an instantiation of the runtime parser on undecodable input —
`JSON.parse` throws a SyntaxError on the C3 message. -/
def c3xParse : String → Except String Json :=
  fun _ => Except.error "Unexpected token o in JSON at position 1"

/-- Fixture: an instantiation of the runtime parser on a well-formed
envelope that lacks a correlation id field. -/
def c3xParseNoId : String → Except String Json :=
  fun _ => Except.ok (Json.obj [("jsonrpc", Json.str "2.0")])

theorem str_append_assoc (a b c : String) : a ++ b ++ c = a ++ (b ++ c) := by
  cases a with
  | mk da =>
    cases b with
    | mk db =>
      cases c with
      | mk dc =>
        show String.append (String.append ⟨da⟩ ⟨db⟩) ⟨dc⟩
            = String.append ⟨da⟩ (String.append ⟨db⟩ ⟨dc⟩)
        simp [String.append, List.append_assoc]

theorem foldl_push {α : Type} (f : α → String) :
    ∀ (l : List α) (init : List String),
      l.foldl (fun arr x => arr ++ [f x]) init = init ++ l.map f := by
  intro l
  induction l with
  | nil => intro init; simp
  | cons x xs ih =>
      intro init
      simp only [List.foldl_cons, List.map_cons]
      rw [ih]
      simp

theorem buildCondQuery_eq (seed : String) (kvs : List (String × Scalar)) :
    buildCondQuery seed kvs
      = joinAnd (seed :: kvs.map (fun kv => condClause kv.1 kv.2)) := by
  unfold buildCondQuery
  rw [foldl_push]
  rfl

theorem beq_false_of_ne {a b : String} (h : a ≠ b) : (a == b) = false :=
  beq_eq_false_iff_ne.mpr h

theorem lookup_setAssoc_self (m : List (String × Subscription)) (k : String)
    (v : Subscription) : (setAssoc m k v).lookup k = some v := by
  induction m with
  | nil => simp [setAssoc, List.lookup]
  | cons kv rest ih =>
      obtain ⟨k2, v2⟩ := kv
      by_cases h : k2 = k
      · simp [setAssoc, h, List.lookup]
      · have hb : (k == k2) = false := beq_false_of_ne (fun e => h e.symm)
        simp [setAssoc, h, List.lookup, hb, ih]

theorem lookup_setAssoc_ne (m : List (String × Subscription)) (k k2 : String)
    (v : Subscription) (h : k2 ≠ k) :
    (setAssoc m k v).lookup k2 = m.lookup k2 := by
  have hb : (k2 == k) = false := beq_false_of_ne h
  induction m with
  | nil => simp [setAssoc, List.lookup, hb]
  | cons kv rest ih =>
      obtain ⟨k3, v3⟩ := kv
      by_cases h3 : k3 = k
      · subst h3
        simp [setAssoc, List.lookup, hb]
      · by_cases h4 : k2 = k3
        · subst h4
          simp [setAssoc, h3, List.lookup]
        · have hb4 : (k2 == k3) = false := beq_false_of_ne h4
          simp [setAssoc, h3, List.lookup, hb4, ih]

theorem lookup_eraseAssoc_self (m : List (String × Subscription)) (k : String) :
    (eraseAssoc m k).lookup k = none := by
  induction m with
  | nil => simp [eraseAssoc, List.lookup]
  | cons kv rest ih =>
      obtain ⟨k2, v2⟩ := kv
      by_cases h : k2 = k
      · have hb : (k2 != k) = false := by simp [h]
        simp only [eraseAssoc, List.filter_cons, hb] at ih ⊢
        simpa using ih
      · have hb : (k2 != k) = true := by simp [h]
        have hb2 : (k == k2) = false := beq_false_of_ne (fun e => h e.symm)
        simp only [eraseAssoc, List.filter_cons, hb] at ih ⊢
        simp [List.lookup, hb2]
        simpa using ih

theorem lookup_eraseAssoc_ne (m : List (String × Subscription)) (k k2 : String)
    (h : k2 ≠ k) : (eraseAssoc m k).lookup k2 = m.lookup k2 := by
  have hb : (k2 == k) = false := beq_false_of_ne h
  induction m with
  | nil => simp [eraseAssoc, List.lookup]
  | cons kv rest ih =>
      obtain ⟨k3, v3⟩ := kv
      by_cases h3 : k3 = k
      · subst h3
        have hne : (k3 != k3) = false := by simp
        simp only [eraseAssoc, List.filter_cons] at ih ⊢
        simp only [hne, if_neg, Bool.false_eq_true, not_false_eq_true, ite_false]
        simp [List.lookup, hb]
        simpa using ih
      · have hkeep : (k3 != k) = true := by simp [h3]
        simp only [eraseAssoc, List.filter_cons, hkeep] at ih ⊢
        by_cases h4 : k2 = k3
        · subst h4
          simp [List.lookup]
        · have hb4 : (k2 == k3) = false := beq_false_of_ne h4
          simp [List.lookup, hb4]
          simpa using ih

theorem subscribe_resolved (st : ClientState) (n : String) (conds : Conditions)
    (cb : Option Nat) (srv : String → Outcome SubResp) (r : SubResp)
    (hws : st.isWebSocket = true)
    (hsv : srv (subQuery st n conds) = Outcome.resolved r) :
    subscribe st n conds cb srv =
      Except.ok
        ({ st with
            countSubscribeEvent := subCount st n
            subscriptions :=
              setAssoc st.subscriptions r.id
                ⟨r.id, subscribeMethodOf n, subQuery st n conds⟩
            listeners := st.listeners ++ [subHandler n r.id conds cb] },
          Outcome.resolved r, subQuery st n conds) := by
  unfold subscribe
  rw [hws]
  simp [hsv]

theorem subscribe_rejected (st : ClientState) (n : String) (conds : Conditions)
    (cb : Option Nat) (srv : String → Outcome SubResp) (e : String)
    (hws : st.isWebSocket = true)
    (hsv : srv (subQuery st n conds) = Outcome.rejected e) :
    subscribe st n conds cb srv =
      Except.ok ({ st with countSubscribeEvent := subCount st n },
        Outcome.rejected e, subQuery st n conds) := by
  unfold subscribe
  rw [hws]
  simp [hsv]

theorem subscribe_pending (st : ClientState) (n : String) (conds : Conditions)
    (cb : Option Nat) (srv : String → Outcome SubResp)
    (hws : st.isWebSocket = true)
    (hsv : srv (subQuery st n conds) = Outcome.pending) :
    subscribe st n conds cb srv =
      Except.ok ({ st with countSubscribeEvent := subCount st n },
        Outcome.pending, subQuery st n conds) := by
  unfold subscribe
  rw [hws]
  simp [hsv]

theorem subscribe_ok_shape (st : ClientState) (n : String) (conds : Conditions)
    (cb : Option Nat) (srv : String → Outcome SubResp)
    (st1 : ClientState) (o1 : Outcome SubResp) (q1 : String)
    (heq : subscribe st n conds cb srv = Except.ok (st1, o1, q1)) :
    q1 = subQuery st n conds ∧ st1.countSubscribeEvent = subCount st n ∧
      st1.isWebSocket = st.isWebSocket := by
  by_cases hws : st.isWebSocket = false
  · simp [subscribe, hws] at heq
  · unfold subscribe at heq
    rw [if_neg hws] at heq
    cases hsv : srv (subQuery st n conds) with
    | resolved r =>
        simp only [hsv, Except.ok.injEq, Prod.mk.injEq] at heq
        obtain ⟨h1, _, h3⟩ := heq
        subst h1 h3
        exact ⟨rfl, rfl, rfl⟩
    | rejected e =>
        simp only [hsv, Except.ok.injEq, Prod.mk.injEq] at heq
        obtain ⟨h1, _, h3⟩ := heq
        subst h1 h3
        exact ⟨rfl, rfl, rfl⟩
    | pending =>
        simp only [hsv, Except.ok.injEq, Prod.mk.injEq] at heq
        obtain ⟨h1, _, h3⟩ := heq
        subst h1 h3
        exact ⟨rfl, rfl, rfl⟩

theorem subSeed_nonsystem (c : Nat) (n : String) (h : subIsSystem n = false) :
    subSeed c n = "tm.event = " ++ spaces c ++ "\x27Tx\x27" := by
  unfold subSeed subEvName
  rw [h]
  simp only [Bool.false_eq_true, if_false]
  rw [str_append_assoc ("tm.event = " ++ spaces c) "\x27" "Tx",
    str_append_assoc ("tm.event = " ++ spaces c) ("\x27" ++ "Tx") "\x27",
    str_append_assoc "\x27" "Tx" "\x27"]
  congr 1

theorem routeEvents_spec (h : MsgHandler) (subs : List (String × Subscription))
    (jm : Json) (m : String) (cb : Nat) (sub : Subscription) (rpc idv : Option Json)
    (hm : h.nonSystemEventName = some m) (hmne : m ≠ "")
    (hcb : h.callback = some cb) (hsub : subs.lookup h.resultId = some sub)
    (hrpc : jm.field "jsonrpc" = Except.ok rpc)
    (hid : jm.field "id" = Except.ok idv) :
    ∀ (events : List Event) (acc : List CallbackCall),
      routeEvents h subs jm acc events =
        Except.ok (acc ++ events.filterMap (fun ev =>
          if ev.eventName = m then
            some (CallbackCall.reshaped cb ⟨rpc, idv, ev, sub.query⟩)
          else none)) := by
  intro events
  induction events with
  | nil => intro acc; simp [routeEvents]
  | cons ev evs ih =>
      intro acc
      by_cases hev : ev.eventName = m
      · have hguard : ev.eventName ≠ "" ∧ h.nonSystemEventName = some ev.eventName := by
          refine ⟨?_, ?_⟩
          · rw [hev]; exact hmne
          · rw [hm, hev]
        rw [routeEvents, routeEvent, if_pos hguard, hrpc, hid, hsub, hcb]
        simp only [ih]
        simp [List.filterMap_cons, hev]
      · have hguard : ¬(ev.eventName ≠ "" ∧ h.nonSystemEventName = some ev.eventName) := by
          rw [hm]
          rintro ⟨h1, h2⟩
          exact hev (Option.some.injEq m ev.eventName ▸ h2).symm
        rw [routeEvents, routeEvent, if_neg hguard]
        simp only [ih]
        simp [List.filterMap_cons, hev]

/-- C5: for every structured (non-string) condition mapping given to the
query builder of `getPastEvents` or `subscribe`, each present key
contributes exactly one clause — `fromBlock` with value `a` yields
`tx.height>a-1`, `toBlock` with value `b` yields `tx.height<b+1`, any other
key `k` with value `v` yields `k=v` — the clauses are joined by `" AND "`
after the seed clause, no clause is emitted for an absent key, and a
condition argument that is already a string is used as the query unchanged,
byte for byte. -/
theorem c5_structured_conditions :
    ∀ (n : String) (em : Option String) (kvs : List (String × Scalar)) (s : String)
      (a b : Int) (k : String) (v : Scalar) (st : ClientState),
      k ≠ "fromBlock" → k ≠ "toBlock" →
      (getPastEventsQuery n em (Conditions.obj kvs)
          = joinAnd (("EventNames CONTAINS \x27" ++ emitterScope em ++ n ++ "|\x27")
              :: kvs.map (fun kv => condClause kv.1 kv.2)))
        ∧ getPastEventsQuery n em (Conditions.str s) = s
        ∧ condClause "fromBlock" (Scalar.num a) = "tx.height>" ++ toString (a - 1)
        ∧ condClause "toBlock" (Scalar.num b) = "tx.height<" ++ toString (b + 1)
        ∧ condClause k v = k ++ "=" ++ v.render
        ∧ (subQuery st n (Conditions.obj kvs)
            = joinAnd (subSeed (subCount st n) n
                :: kvs.map (fun kv => condClause kv.1 kv.2)))
        ∧ subQuery st n (Conditions.str s) = s := by
  intro n em kvs s a b k v st hk1 hk2
  refine ⟨buildCondQuery_eq _ kvs, rfl, ?_, ?_, ?_, buildCondQuery_eq _ kvs, rfl⟩
  · simp [condClause, renderSub1, jsToNumber]
  · simp [condClause, renderAdd1]
  · simp [condClause, hk1, hk2]

/-- C5 witness: the condition mapping
`{fromBlock: 5, toBlock: 9, from: "addr1"}` for event `Transferred`
(no emitter) builds exactly the three claimed clauses after the seed, a
string condition passes through unchanged, and the same holds for the live
subscribe builder. -/
theorem c5_witness :
    getPastEventsQuery "Transferred" none
        (Conditions.obj [("fromBlock", Scalar.num 5), ("toBlock", Scalar.num 9),
          ("from", Scalar.str "addr1")])
      = joinAnd ["EventNames CONTAINS \x27.Transferred|\x27",
          "tx.height>4", "tx.height<10", "from=addr1"]
    ∧ getPastEventsQuery "Transferred" none (Conditions.str "abc") = "abc"
    ∧ condClause "fromBlock" (Scalar.num 5) = "tx.height>4"
    ∧ condClause "toBlock" (Scalar.num 9) = "tx.height<10"
    ∧ condClause "from" (Scalar.str "addr1") = "from=addr1"
    ∧ subQuery (mkClient "ws://node") "Transferred"
        (Conditions.obj [("fromBlock", Scalar.num 5), ("toBlock", Scalar.num 9),
          ("from", Scalar.str "addr1")])
      = joinAnd ["tm.event =  \x27Tx\x27", "tx.height>4", "tx.height<10", "from=addr1"]
    ∧ subQuery (mkClient "ws://node") "Transferred" (Conditions.str "abc") = "abc" :=
  c5_structured_conditions "Transferred" none
    [("fromBlock", Scalar.num 5), ("toBlock", Scalar.num 9), ("from", Scalar.str "addr1")]
    "abc" 5 9 "from" (Scalar.str "addr1") (mkClient "ws://node")
    (by decide) (by decide)

/-- C6: for every `getPastEvents` call with structured conditions, the seed
(first) clause of the built query is the containment test
`EventNames CONTAINS emitterScope-eventName-bar`, where the scope is
`.` when no emitter is given and `|emitter.` when a (nonempty) emitter is
given. -/
theorem c6_seed_clause :
    ∀ (n em : String) (kvs : List (String × Scalar)), em ≠ "" →
      getPastEventsQuery n none (Conditions.obj kvs)
          = joinAnd (("EventNames CONTAINS \x27." ++ n ++ "|\x27")
              :: kvs.map (fun kv => condClause kv.1 kv.2))
        ∧ getPastEventsQuery n (some em) (Conditions.obj kvs)
          = joinAnd (("EventNames CONTAINS \x27|" ++ em ++ "." ++ n ++ "|\x27")
              :: kvs.map (fun kv => condClause kv.1 kv.2)) := by
  intro n em kvs hem
  constructor
  · exact buildCondQuery_eq _ kvs
  · have hscope : emitterScope (some em) = "|" ++ em ++ "." := by
      simp [emitterScope, hem]
    show buildCondQuery
        ("EventNames CONTAINS \x27" ++ emitterScope (some em) ++ n ++ "|\x27") kvs = _
    rw [hscope, buildCondQuery_eq]
    have h1 : ("EventNames CONTAINS \x27" ++ ("|" ++ em ++ ".") : String)
        = "EventNames CONTAINS \x27|" ++ em ++ "." := by
      rw [← str_append_assoc, ← str_append_assoc]
      congr 2
    rw [h1]

/-- C6 witness: for event `Transferred` the seed clause is
`EventNames CONTAINS '.Transferred|'` without an emitter and
`EventNames CONTAINS '|teat1abc.Transferred|'` with emitter `teat1abc`. -/
theorem c6_witness :
    getPastEventsQuery "Transferred" none (Conditions.obj [])
        = "EventNames CONTAINS \x27.Transferred|\x27"
      ∧ getPastEventsQuery "Transferred" (some "teat1abc") (Conditions.obj [])
        = "EventNames CONTAINS \x27|teat1abc.Transferred|\x27" :=
  c6_seed_clause "Transferred" "teat1abc" [] (by decide)

/-- C8: for every `unsubscribe` call on an id with no registered
Subscription, the operation rejects with the not-subscribed error, no
unsubscribe request is sent to the Transport (the sent-query list is
empty), and the registry — indeed the whole client state — is
unchanged. -/
theorem c8_not_subscribed :
    ∀ (st : ClientState) (sid : String) (srv : String → Outcome String),
      st.isWebSocket = true →
      st.subscriptions.lookup sid = none →
      unsubscribe st sid srv =
        Except.ok (st,
          Outcome.rejected
            ("Error: Subscription with ID " ++ sid ++ " does not exist."),
          []) := by
  intro st sid srv hws hnone
  unfold unsubscribe
  rw [hws]
  simp [hnone]

/-- C8 witness: unsubscribing an unknown id `nope` on a fresh WebSocket
client rejects with the error message, sends nothing, and leaves the state
untouched. -/
theorem c8_witness :
    (mkClient "ws://node").subscriptions.lookup "nope" = none
    ∧ unsubscribe (mkClient "ws://node") "nope" (fun _ => Outcome.pending) =
        Except.ok (mkClient "ws://node",
          Outcome.rejected "Error: Subscription with ID nope does not exist.", []) :=
  ⟨rfl, c8_not_subscribed (mkClient "ws://node") "nope" (fun _ => Outcome.pending) rfl rfl⟩

/-- C2 (amended): for every `subscribe` call with a non-system event name
and structured conditions on a WebSocket client, the counter of that client
instance is incremented and the built query's seed clause carries exactly
counter-many inserted spaces before the quoted `Tx` literal; two sequential
subscriptions on the same instance therefore produce queries differing only
in that whitespace, whose amount strictly increases.  (The counter is a
field of the client instance — `this.countSubscribeEvent`, set to 0 in the
constructor — not a process-wide one.) -/
theorem c2_whitespace_counter :
    ∀ (st : ClientState) (n : String) (kvs : List (String × Scalar))
      (cb1 cb2 : Option Nat) (srv1 srv2 : String → Outcome SubResp)
      (st1 st2 : ClientState) (o1 o2 : Outcome SubResp) (q1 q2 : String),
      subIsSystem n = false →
      subscribe st n (Conditions.obj kvs) cb1 srv1 = Except.ok (st1, o1, q1) →
      subscribe st1 n (Conditions.obj kvs) cb2 srv2 = Except.ok (st2, o2, q2) →
      st1.countSubscribeEvent = st.countSubscribeEvent + 1
        ∧ st2.countSubscribeEvent = st.countSubscribeEvent + 2
        ∧ q1 = joinAnd (("tm.event = " ++ spaces (st.countSubscribeEvent + 1)
              ++ "\x27Tx\x27") :: kvs.map (fun kv => condClause kv.1 kv.2))
        ∧ q2 = joinAnd (("tm.event = " ++ spaces (st.countSubscribeEvent + 2)
              ++ "\x27Tx\x27") :: kvs.map (fun kv => condClause kv.1 kv.2)) := by
  intro st n kvs cb1 cb2 srv1 srv2 st1 st2 o1 o2 q1 q2 hsys h1 h2
  obtain ⟨hq1, hc1, _⟩ := subscribe_ok_shape st n _ cb1 srv1 st1 o1 q1 h1
  obtain ⟨hq2, hc2, _⟩ := subscribe_ok_shape st1 n _ cb2 srv2 st2 o2 q2 h2
  have hcount1 : subCount st n = st.countSubscribeEvent + 1 := by
    simp [subCount, hsys]
  have hcount2 : subCount st1 n = st.countSubscribeEvent + 2 := by
    simp [subCount, hsys, hc1, hcount1]
  refine ⟨by rw [hc1, hcount1], by rw [hc2, hcount2], ?_, ?_⟩
  · rw [hq1]
    show buildCondQuery (subSeed (subCount st n) n) kvs = _
    rw [buildCondQuery_eq, hcount1, subSeed_nonsystem _ _ hsys]
  · rw [hq2]
    show buildCondQuery (subSeed (subCount st1 n) n) kvs = _
    rw [buildCondQuery_eq, hcount2, subSeed_nonsystem _ _ hsys]

/-- C2 witness: two sequential `Transferred` subscriptions on one fresh
WebSocket client give counters 1 then 2, and queries whose seed carries one
then two inserted spaces. -/
theorem c2_witness :
    (1 : Nat) = 0 + 1
      ∧ (2 : Nat) = 0 + 2
      ∧ "tm.event =  \x27Tx\x27"
          = joinAnd [("tm.event = " ++ spaces (0 + 1) ++ "\x27Tx\x27")]
      ∧ "tm.event =   \x27Tx\x27"
          = joinAnd [("tm.event = " ++ spaces (0 + 2) ++ "\x27Tx\x27")] :=
  c2_whitespace_counter (mkClient "ws://node") "Transferred" [] none none
    (fun _ => Outcome.resolved ⟨"s1"⟩) (fun _ => Outcome.resolved ⟨"s2"⟩)
    ⟨true, [("s1", ⟨"s1", "Transferred", "tm.event =  \x27Tx\x27"⟩)], 1,
      [⟨"s1", false, some "Transferred", none⟩]⟩
    ⟨true, [("s1", ⟨"s1", "Transferred", "tm.event =  \x27Tx\x27"⟩),
        ("s2", ⟨"s2", "Transferred", "tm.event =   \x27Tx\x27"⟩)], 2,
      [⟨"s1", false, some "Transferred", none⟩, ⟨"s2", false, some "Transferred", none⟩]⟩
    (Outcome.resolved ⟨"s1"⟩) (Outcome.resolved ⟨"s2"⟩)
    "tm.event =  \x27Tx\x27" "tm.event =   \x27Tx\x27"
    (by decide) rfl rfl

/-- C2 counterexample: the subscribe counter is not process-wide.  It is a
field of the client instance, reset to 0 by the constructor, so after a
first non-system subscription in the process, a second client's first
subscription — the next sequential subscription of the process — still
builds its seed with a single inserted space, where a process-wide counter
would insert two; the two sequential queries are identical instead of
strictly increasing in whitespace. -/
theorem c2_counterexample :
    subscribe (mkClient "ws://node") "Transferred" (Conditions.obj []) none
        (fun _ => Outcome.resolved ⟨"idA"⟩)
      = Except.ok
          (⟨true, [("idA", ⟨"idA", "Transferred", "tm.event =  \x27Tx\x27"⟩)], 1,
              [⟨"idA", false, some "Transferred", none⟩]⟩,
            Outcome.resolved ⟨"idA"⟩, "tm.event =  \x27Tx\x27")
      ∧ subscribe (mkClient "ws://node") "Transferred" (Conditions.obj []) none
          (fun _ => Outcome.resolved ⟨"idB"⟩)
        = Except.ok
            (⟨true, [("idB", ⟨"idB", "Transferred", "tm.event =  \x27Tx\x27"⟩)], 1,
                [⟨"idB", false, some "Transferred", none⟩]⟩,
              Outcome.resolved ⟨"idB"⟩, "tm.event =  \x27Tx\x27")
      ∧ ("tm.event =  \x27Tx\x27" : String) ≠ "tm.event =   \x27Tx\x27" :=
  ⟨rfl, rfl, by decide⟩

/-- C9: a `subscribe` call over a WebSocket transport whose `conditions`
argument is a function and whose `callback` argument is undefined treats
the function as the callback (it becomes the registered handler's
callback) and builds the query from an empty condition map, so the query
sent and stored is the seed tag clause alone. -/
theorem c9_function_conditions :
    ∀ (st : ClientState) (n : String) (f : Nat) (srv : String → Outcome SubResp)
      (r : SubResp),
      st.isWebSocket = true →
      srv (subQuery st n (Conditions.fn f)) = Outcome.resolved r →
      subscribe st n (Conditions.fn f) none srv =
        Except.ok
          ({ st with
              countSubscribeEvent := subCount st n
              subscriptions := setAssoc st.subscriptions r.id
                ⟨r.id, subscribeMethodOf n, subSeed (subCount st n) n⟩
              listeners := st.listeners ++
                [{ resultId := r.id
                   isSystemEvent := subIsSystem n
                   nonSystemEventName := if subIsSystem n then none else some n
                   callback := some f }] },
            Outcome.resolved r, subSeed (subCount st n) n) := by
  intro st n f srv r hws hsv
  exact subscribe_resolved st n (Conditions.fn f) none srv r hws hsv

/-- C9 witness: subscribing to `Transferred` with a function as conditions
and no callback registers the function (tag 42) as the handler callback
and sends the bare seed query with one inserted space. -/
theorem c9_witness :
    subscribe (mkClient "ws://node") "Transferred" (Conditions.fn 42) none
        (fun _ => Outcome.resolved ⟨"s9"⟩)
      = Except.ok
          (⟨true, [("s9", ⟨"s9", "Transferred", "tm.event =  \x27Tx\x27"⟩)], 1,
              [⟨"s9", false, some "Transferred", some 42⟩]⟩,
            Outcome.resolved ⟨"s9"⟩, "tm.event =  \x27Tx\x27") :=
  c9_function_conditions (mkClient "ws://node") "Transferred" 42
    (fun _ => Outcome.resolved ⟨"s9"⟩) ⟨"s9"⟩ rfl rfl

/-- C7: for every `unsubscribe` call on a registered subscription id, the
registry entry is removed only after the server's unsubscribe request
resolves; when the request rejects or never settles, the entry (and the
whole state) remains as it was. -/
theorem c7_unsubscribe_after_ack :
    ∀ (st : ClientState) (sid : String) (sub : Subscription)
      (srv : String → Outcome String),
      st.isWebSocket = true →
      st.subscriptions.lookup sid = some sub →
      (∀ res, srv sub.query = Outcome.resolved res →
        unsubscribe st sid srv =
          Except.ok ({ st with subscriptions := eraseAssoc st.subscriptions sid },
            Outcome.resolved res, [sub.query])
          ∧ (eraseAssoc st.subscriptions sid).lookup sid = none)
        ∧ (∀ e, srv sub.query = Outcome.rejected e →
            unsubscribe st sid srv = Except.ok (st, Outcome.rejected e, [sub.query]))
        ∧ (srv sub.query = Outcome.pending →
            unsubscribe st sid srv = Except.ok (st, Outcome.pending, [sub.query])) := by
  intro st sid sub srv hws hsub
  refine ⟨?_, ?_, ?_⟩
  · intro res hsv
    constructor
    · unfold unsubscribe
      rw [hws]
      simp [hsub, hsv]
    · exact lookup_eraseAssoc_self st.subscriptions sid
  · intro e hsv
    unfold unsubscribe
    rw [hws]
    simp [hsub, hsv]
  · intro hsv
    unfold unsubscribe
    rw [hws]
    simp [hsub, hsv]

/-- C7 witness: with one registered subscription `s1`, an acknowledged
unsubscribe removes the entry, while a rejected and a pending one leave the
state untouched (with the query having been sent in each case). -/
theorem c7_witness :
    (unsubscribe ⟨true, [("s1", ⟨"s1", "Transferred", "q1"⟩)], 1, []⟩ "s1"
          (fun _ => Outcome.resolved "ok")
        = Except.ok (⟨true, [], 1, []⟩, Outcome.resolved "ok", ["q1"])
      ∧ (eraseAssoc [("s1", ⟨"s1", "Transferred", "q1"⟩)] "s1").lookup "s1" = none)
    ∧ unsubscribe ⟨true, [("s1", ⟨"s1", "Transferred", "q1"⟩)], 1, []⟩ "s1"
          (fun _ => Outcome.rejected "boom")
        = Except.ok (⟨true, [("s1", ⟨"s1", "Transferred", "q1"⟩)], 1, []⟩,
            Outcome.rejected "boom", ["q1"])
    ∧ unsubscribe ⟨true, [("s1", ⟨"s1", "Transferred", "q1"⟩)], 1, []⟩ "s1"
          (fun _ => Outcome.pending)
        = Except.ok (⟨true, [("s1", ⟨"s1", "Transferred", "q1"⟩)], 1, []⟩,
            Outcome.pending, ["q1"]) :=
  ⟨(c7_unsubscribe_after_ack ⟨true, [("s1", ⟨"s1", "Transferred", "q1"⟩)], 1, []⟩
      "s1" ⟨"s1", "Transferred", "q1"⟩ (fun _ => Outcome.resolved "ok") rfl rfl).1
      "ok" rfl,
    (c7_unsubscribe_after_ack ⟨true, [("s1", ⟨"s1", "Transferred", "q1"⟩)], 1, []⟩
      "s1" ⟨"s1", "Transferred", "q1"⟩ (fun _ => Outcome.rejected "boom") rfl rfl).2.1
      "boom" rfl,
    (c7_unsubscribe_after_ack ⟨true, [("s1", ⟨"s1", "Transferred", "q1"⟩)], 1, []⟩
      "s1" ⟨"s1", "Transferred", "q1"⟩ (fun _ => Outcome.pending) rfl rfl).2.2 rfl⟩

/-- C4 (amended): when a `subscribe` call resolves with a server id that is
already present in the registry, no error is surfaced — the call succeeds
and the existing entry is silently overwritten in place by the new
subscription, while every other entry is left unchanged. -/
theorem c4_duplicate_overwrites :
    ∀ (st : ClientState) (n : String) (conds : Conditions) (cb : Option Nat)
      (srv : String → Outcome SubResp) (r : SubResp) (old : Subscription),
      st.isWebSocket = true →
      srv (subQuery st n conds) = Outcome.resolved r →
      st.subscriptions.lookup r.id = some old →
      subscribe st n conds cb srv =
        Except.ok
          ({ st with
              countSubscribeEvent := subCount st n
              subscriptions := setAssoc st.subscriptions r.id
                ⟨r.id, subscribeMethodOf n, subQuery st n conds⟩
              listeners := st.listeners ++ [subHandler n r.id conds cb] },
            Outcome.resolved r, subQuery st n conds)
        ∧ (setAssoc st.subscriptions r.id
              ⟨r.id, subscribeMethodOf n, subQuery st n conds⟩).lookup r.id
            = some ⟨r.id, subscribeMethodOf n, subQuery st n conds⟩
        ∧ ∀ k, k ≠ r.id →
            (setAssoc st.subscriptions r.id
                ⟨r.id, subscribeMethodOf n, subQuery st n conds⟩).lookup k
              = st.subscriptions.lookup k := by
  intro st n conds cb srv r old hws hsv _hdup
  refine ⟨subscribe_resolved st n conds cb srv r hws hsv, ?_, ?_⟩
  · exact lookup_setAssoc_self st.subscriptions r.id _
  · intro k hk
    exact lookup_setAssoc_ne st.subscriptions r.id k _ hk

/-- C4 witness: on a client already holding the id `dup`, a second resolved
subscribe with the same server id succeeds, the `dup` entry now carries the
second query, and an unrelated key is unaffected. -/
theorem c4_witness :
    subscribe
        ⟨true, [("dup", ⟨"dup", "Transferred", "tm.event =  \x27Tx\x27"⟩)], 1,
          [⟨"dup", false, some "Transferred", none⟩]⟩
        "Transferred" (Conditions.obj []) none (fun _ => Outcome.resolved ⟨"dup"⟩)
      = Except.ok
          (⟨true, [("dup", ⟨"dup", "Transferred", "tm.event =   \x27Tx\x27"⟩)], 2,
              [⟨"dup", false, some "Transferred", none⟩,
                ⟨"dup", false, some "Transferred", none⟩]⟩,
            Outcome.resolved ⟨"dup"⟩, "tm.event =   \x27Tx\x27")
      ∧ (setAssoc [("dup", ⟨"dup", "Transferred", "tm.event =  \x27Tx\x27"⟩)] "dup"
            ⟨"dup", "Transferred", "tm.event =   \x27Tx\x27"⟩).lookup "dup"
          = some ⟨"dup", "Transferred", "tm.event =   \x27Tx\x27"⟩
      ∧ (setAssoc [("dup", ⟨"dup", "Transferred", "tm.event =  \x27Tx\x27"⟩)] "dup"
            ⟨"dup", "Transferred", "tm.event =   \x27Tx\x27"⟩).lookup "other"
          = ([("dup", (⟨"dup", "Transferred", "tm.event =  \x27Tx\x27"⟩ : Subscription))]).lookup "other" := by
  have h := c4_duplicate_overwrites
    ⟨true, [("dup", ⟨"dup", "Transferred", "tm.event =  \x27Tx\x27"⟩)], 1,
      [⟨"dup", false, some "Transferred", none⟩]⟩
    "Transferred" (Conditions.obj []) none (fun _ => Outcome.resolved ⟨"dup"⟩)
    ⟨"dup"⟩ ⟨"dup", "Transferred", "tm.event =  \x27Tx\x27"⟩ rfl rfl rfl
  exact ⟨h.1, h.2.1, h.2.2 "other" (by decide)⟩

/-- C4 counterexample: a duplicate server id does not fail with a
DuplicateSubscription error and the existing entry is not preserved — two
resolved subscribes returning the same id `dup` both succeed, and after the
second the single registry entry holds the second (different) query: the
first registration has been silently overwritten. -/
theorem c4_counterexample :
    subscribe (mkClient "ws://node") "Transferred" (Conditions.obj []) none
        (fun _ => Outcome.resolved ⟨"dup"⟩)
      = Except.ok
          (⟨true, [("dup", ⟨"dup", "Transferred", "tm.event =  \x27Tx\x27"⟩)], 1,
              [⟨"dup", false, some "Transferred", none⟩]⟩,
            Outcome.resolved ⟨"dup"⟩, "tm.event =  \x27Tx\x27")
      ∧ subscribe
          ⟨true, [("dup", ⟨"dup", "Transferred", "tm.event =  \x27Tx\x27"⟩)], 1,
            [⟨"dup", false, some "Transferred", none⟩]⟩
          "Transferred" (Conditions.obj []) none (fun _ => Outcome.resolved ⟨"dup"⟩)
        = Except.ok
            (⟨true, [("dup", ⟨"dup", "Transferred", "tm.event =   \x27Tx\x27"⟩)], 2,
                [⟨"dup", false, some "Transferred", none⟩,
                  ⟨"dup", false, some "Transferred", none⟩]⟩,
              Outcome.resolved ⟨"dup"⟩, "tm.event =   \x27Tx\x27")
      ∧ ("tm.event =  \x27Tx\x27" : String) ≠ "tm.event =   \x27Tx\x27" :=
  ⟨rfl, rfl, by decide⟩

/-- C10: every successful subscribe appends one further `onMessage`
listener on the Transport, and `unsubscribe` changes only the registry
entry for the given id — the listeners (in particular the one installed by
the corresponding subscribe), the counter, the transport kind, and every
other registry entry are exactly as before. -/
theorem c10_listener_persistence :
    (∀ (st : ClientState) (n : String) (conds : Conditions) (cb : Option Nat)
        (srv : String → Outcome SubResp) (st1 : ClientState) (r : SubResp)
        (q1 : String),
        subscribe st n conds cb srv = Except.ok (st1, Outcome.resolved r, q1) →
        st1.listeners = st.listeners ++ [subHandler n r.id conds cb])
      ∧ (∀ (st : ClientState) (sid : String) (srv : String → Outcome String)
          (st1 : ClientState) (o : Outcome String) (sent : List String),
          unsubscribe st sid srv = Except.ok (st1, o, sent) →
          st1.listeners = st.listeners
            ∧ st1.countSubscribeEvent = st.countSubscribeEvent
            ∧ st1.isWebSocket = st.isWebSocket
            ∧ ∀ k, k ≠ sid →
                st1.subscriptions.lookup k = st.subscriptions.lookup k) := by
  constructor
  · intro st n conds cb srv st1 r q1 heq
    by_cases hws : st.isWebSocket = false
    · simp [subscribe, hws] at heq
    · unfold subscribe at heq
      rw [if_neg hws] at heq
      cases hsv : srv (subQuery st n conds) with
      | resolved r2 =>
          simp only [hsv, Except.ok.injEq, Prod.mk.injEq,
            Outcome.resolved.injEq] at heq
          obtain ⟨h1, h2, _⟩ := heq
          subst h2
          rw [← h1]
      | rejected e => simp [hsv] at heq
      | pending => simp [hsv] at heq
  · intro st sid srv st1 o sent heq
    by_cases hws : st.isWebSocket = false
    · simp [unsubscribe, hws] at heq
    · unfold unsubscribe at heq
      rw [if_neg hws] at heq
      cases hsub : st.subscriptions.lookup sid with
      | none =>
          simp only [hsub, Except.ok.injEq, Prod.mk.injEq] at heq
          obtain ⟨h1, _, _⟩ := heq
          subst h1
          exact ⟨rfl, rfl, rfl, fun k _ => rfl⟩
      | some sub =>
          cases hsv : srv sub.query with
          | resolved res =>
              simp only [hsub, hsv, Except.ok.injEq, Prod.mk.injEq] at heq
              obtain ⟨h1, _, _⟩ := heq
              subst h1
              refine ⟨rfl, rfl, rfl, fun k hk => ?_⟩
              exact lookup_eraseAssoc_ne st.subscriptions sid k hk
          | rejected e =>
              simp only [hsub, hsv, Except.ok.injEq, Prod.mk.injEq] at heq
              obtain ⟨h1, _, _⟩ := heq
              subst h1
              exact ⟨rfl, rfl, rfl, fun k _ => rfl⟩
          | pending =>
              simp only [hsub, hsv, Except.ok.injEq, Prod.mk.injEq] at heq
              obtain ⟨h1, _, _⟩ := heq
              subst h1
              exact ⟨rfl, rfl, rfl, fun k _ => rfl⟩

/-- C10 witness: a resolved subscribe on a fresh client leaves exactly one
appended listener, and an acknowledged unsubscribe of `s1` keeps that
listener, the counter, the transport kind, and an unrelated registry key
untouched. -/
theorem c10_witness :
    ([(⟨"s1", false, some "Transferred", none⟩ : MsgHandler)]
        = [] ++ [subHandler "Transferred" "s1" (Conditions.obj []) none])
      ∧ ([(⟨"s1", false, some "Transferred", none⟩ : MsgHandler)]
          = [⟨"s1", false, some "Transferred", none⟩])
      ∧ ((1 : Nat) = 1)
      ∧ ((true : Bool) = true)
      ∧ (([] : List (String × Subscription)).lookup "other"
          = ([("s1", (⟨"s1", "Transferred", "q1"⟩ : Subscription))]).lookup "other") := by
  have h1 := c10_listener_persistence.1 (mkClient "ws://node") "Transferred"
    (Conditions.obj []) none (fun _ => Outcome.resolved ⟨"s1"⟩)
    ⟨true, [("s1", ⟨"s1", "Transferred", "tm.event =  \x27Tx\x27"⟩)], 1,
      [⟨"s1", false, some "Transferred", none⟩]⟩
    ⟨"s1"⟩ "tm.event =  \x27Tx\x27" rfl
  have h2 := c10_listener_persistence.2
    ⟨true, [("s1", ⟨"s1", "Transferred", "q1"⟩)], 1,
      [⟨"s1", false, some "Transferred", none⟩]⟩
    "s1" (fun _ => Outcome.resolved "ok")
    ⟨true, [], 1, [⟨"s1", false, some "Transferred", none⟩]⟩
    (Outcome.resolved "ok") ["q1"] rfl
  exact ⟨h1, h2.1, h2.2.1, h2.2.2.1, h2.2.2.2 "other" (by decide)⟩

/-- C1 (amended): for every inbound push message parsing to an envelope
whose id field is a string containing the handler's nonempty subscription
id as a substring, a non-system handler with a nonempty captured event
name (equal, for such subscriptions, to the registered `subscribeMethod`)
and a live registry entry invokes the callback exactly once per decoded
Event whose `eventName` equals that name — each time with a reshaped
envelope keeping the original `jsonrpc` and `id` fields, carrying the
single matching Event as `result` and the stored query as `result.query` —
and zero matching Events yield zero invocations and no error. -/
theorem c1_router_fanout :
    ∀ (h : MsgHandler) (subs : List (String × Subscription))
      (parse : String → Except String Json) (dec : Option Json → List Event)
      (msg : String) (jm : Json) (envId : String) (rpc resF : Option Json)
      (m : String) (cb : Nat) (sub : Subscription),
      h.isSystemEvent = false →
      h.nonSystemEventName = some m →
      m ≠ "" →
      h.callback = some cb →
      h.resultId ≠ "" →
      parse msg = Except.ok jm →
      jm.field "id" = Except.ok (some (Json.str envId)) →
      strContainsSub envId h.resultId = true →
      jm.field "jsonrpc" = Except.ok rpc →
      jm.field "result" = Except.ok resF →
      subs.lookup h.resultId = some sub →
      runOnMessage h subs parse dec msg =
        Except.ok ((dec resF).filterMap (fun ev =>
          if ev.eventName = m then
            some (CallbackCall.reshaped cb ⟨rpc, some (Json.str envId), ev, sub.query⟩)
          else none)) := by
  intro h subs parse dec msg jm envId rpc resF m cb sub hsys hm hmne hcb hrid
    hparse hid hhit hrpc hres hsub
  unfold runOnMessage
  rw [hparse]
  simp only [hrid, not_false_eq_true, if_true, hid, jsIndexOf, hhit, hsys,
    Bool.false_eq_true, if_false, hres,
    routeEvents_spec h subs jm m cb sub rpc (some (Json.str envId))
      hm hmne hcb hsub hrpc hid]
  simp
  intro hfalse
  exact absurd hfalse hrid

/-- C1 witness: the spec's worked example — an envelope with id
`abc#event` containing the subscription id `abc`, decoding to a
`Transferred` and an `Other` event, routed to a `Transferred` subscription,
invokes the callback exactly once, with the reshaped result being the
`Transferred` event and `result.query` the stored query. -/
theorem c1_witness :
    c1wParse c1wMsg = Except.ok c1wJson
      ∧ runOnMessage ⟨"abc", false, some "Transferred", some 5⟩
          [("abc", ⟨"abc", "Transferred", "qstored"⟩)] c1wParse c1wDec c1wMsg
        = Except.ok [CallbackCall.reshaped 5
            ⟨some (Json.str "2.0"), some (Json.str "abc#event"),
              ⟨"Transferred", "teat1emitter", []⟩, "qstored"⟩] :=
  ⟨rfl,
    c1_router_fanout ⟨"abc", false, some "Transferred", some 5⟩
      [("abc", ⟨"abc", "Transferred", "qstored"⟩)] c1wParse c1wDec c1wMsg
      c1wJson "abc#event" (some (Json.str "2.0")) (some (Json.obj []))
      "Transferred" 5 ⟨"abc", "Transferred", "qstored"⟩
      rfl rfl (by decide) rfl (by decide) rfl rfl (by decide) rfl rfl rfl⟩

/-- C1 counterexample: the claim as stated fails for a registered
non-system Subscription whose server-returned id is the empty string.  The
registration succeeds (subscribeMethod `MyEvent`), the empty id occurs in
the envelope id `abc` as a substring, and the decoded payload holds exactly
one `MyEvent` event — the claim demands one callback invocation — yet the
handler's truthiness guard on `result.id` drops the message and zero
invocations happen. -/
theorem c1_counterexample :
    subscribe (mkClient "ws://node") "MyEvent" (Conditions.obj []) (some 7)
        (fun _ => Outcome.resolved ⟨""⟩)
      = Except.ok
          (⟨true, [("", ⟨"", "MyEvent", "tm.event =  \x27Tx\x27"⟩)], 1,
              [⟨"", false, some "MyEvent", some 7⟩]⟩,
            Outcome.resolved ⟨""⟩, "tm.event =  \x27Tx\x27")
      ∧ strContainsSub "abc" "" = true
      ∧ (c1xDec (some (Json.obj []))).map Event.eventName = ["MyEvent"]
      ∧ c1xParse c1xMsg = Except.ok c1xJson
      ∧ runOnMessage ⟨"", false, some "MyEvent", some 7⟩
          [("", ⟨"", "MyEvent", "tm.event =  \x27Tx\x27"⟩)] c1xParse c1xDec c1xMsg
        = Except.ok [] :=
  ⟨rfl, by decide, rfl, rfl, rfl⟩

/-- C3 (amended): an inbound push message the runtime JSON parser rejects
invokes no subscription callback, but the parse exception propagates out of
the `onMessage` handler instead of being dropped silently; likewise a
parsed envelope without a usable id field (the field is `undefined`)
throws a TypeError at the `indexOf` call whenever the handler's stored id
is truthy, again after zero callback invocations. -/
theorem c3_parse_error_propagates :
    (∀ (h : MsgHandler) (subs : List (String × Subscription))
        (parse : String → Except String Json) (dec : Option Json → List Event)
        (msg e : String),
        parse msg = Except.error e →
        runOnMessage h subs parse dec msg = Except.error (JsError.parseFail e))
      ∧ (∀ (h : MsgHandler) (subs : List (String × Subscription))
          (parse : String → Except String Json) (dec : Option Json → List Event)
          (msg : String) (jm : Json),
          h.resultId ≠ "" →
          parse msg = Except.ok jm →
          jm.field "id" = Except.ok none →
          runOnMessage h subs parse dec msg =
            Except.error
              (JsError.typeErr "Cannot read property indexOf of undefined")) := by
  constructor
  · intro h subs parse dec msg e hparse
    unfold runOnMessage
    rw [hparse]
  · intro h subs parse dec msg jm hrid hparse hid
    unfold runOnMessage
    rw [hparse]
    simp only [hid, jsIndexOf]
    rw [if_pos hrid]

/-- C3 witness: on the undecodable input `not json` the handler of a live
system subscription performs no callback invocation and surfaces the parse
failure; on a well-formed envelope lacking an id field, the handler of a
subscription with a truthy stored id throws the TypeError instead of
invoking any callback. -/
theorem c3_witness :
    c3xParse "not json" = Except.error "Unexpected token o in JSON at position 1"
      ∧ runOnMessage ⟨"s2", true, none, some 3⟩ [] c3xParse (fun _ => []) "not json"
        = Except.error (JsError.parseFail "Unexpected token o in JSON at position 1")
      ∧ c3xParseNoId "\x7b\"jsonrpc\":\"2.0\"\x7d"
        = Except.ok (Json.obj [("jsonrpc", Json.str "2.0")])
      ∧ (Json.obj [("jsonrpc", Json.str "2.0")]).field "id" = Except.ok none
      ∧ runOnMessage ⟨"s2", true, none, some 3⟩ [] c3xParseNoId (fun _ => [])
          "\x7b\"jsonrpc\":\"2.0\"\x7d"
        = Except.error (JsError.typeErr "Cannot read property indexOf of undefined") :=
  ⟨rfl,
    c3_parse_error_propagates.1 ⟨"s2", true, none, some 3⟩ [] c3xParse (fun _ => [])
      "not json" "Unexpected token o in JSON at position 1" rfl,
    rfl, rfl,
    c3_parse_error_propagates.2 ⟨"s2", true, none, some 3⟩ [] c3xParseNoId
      (fun _ => []) "\x7b\"jsonrpc\":\"2.0\"\x7d"
      (Json.obj [("jsonrpc", Json.str "2.0")]) (by decide) rfl rfl⟩

/-- C3 counterexample: the claim that the router never raises an error out
of the message handler on malformed input is false — on `not json` the
handler of a registered application subscription throws the parse
exception (there is no try/catch around `JSON.parse` in the handler). -/
theorem c3_counterexample :
    runOnMessage ⟨"s1", false, some "Transferred", some 3⟩
        [("s1", ⟨"s1", "Transferred", "q"⟩)] c3xParse (fun _ => []) "not json"
      = Except.error (JsError.parseFail "Unexpected token o in JSON at position 1") :=
  rfl

end IceteaWeb3
